import Mathlib

/-!
Verification of the voice-chat application (Next.js).

The development is a shallow embedding of the three source modules:

* `components/VoiceChat.tsx` — the conversational turn controller (React
  component).  Its handlers (`startListening`, `sendMessage`, `speakText`,
  `stopSpeaking`, `clearChat`) are embedded as pure functions from a
  controller state (the React `useState` flags plus the message list) and
  the outcome of each external call to a new state together with a trace of
  observable events (capture started, playback cancelled, playback started,
  turn appended).
* `app/api/voice-chat/route.ts` — the completion gateway: `needsSearch`,
  `searchWikipedia` (the internal lookup client) and the `POST` handler,
  embedded as `needsSearch`, `searchWikipedia` and `voiceChatPOST`.
* `app/api/search-wikipedia/route.ts` — the lookup gateway endpoint,
  embedded as `searchWikipediaPOST`.

JavaScript strings are modelled as `List Char`; `String.prototype.includes`
is the substring test `includesSub`; `toLowerCase` is `Char.toLower` mapped
over the characters (the source only matches ASCII keyword phrases).
Asynchronous external calls (fetch, speech recognition, speech synthesis)
are modelled by passing their outcome as an explicit argument, so each
handler is a total function: an exception thrown by a collaborator is one
of the outcome constructors, never a Lean-level failure.
-/

namespace VoiceApp

/-- `hasPrefixSeq hay needle` : `needle` is a prefix of `hay`
(character-by-character comparison, as JavaScript compares strings). -/
def hasPrefixSeq : List Char → List Char → Bool
  | _, [] => true
  | [], _ :: _ => false
  | a :: as, b :: bs => a == b && hasPrefixSeq as bs

/-- `includesSub hay needle` : JavaScript `hay.includes(needle)` —
`needle` occurs contiguously somewhere in `hay`. -/
def includesSub : List Char → List Char → Bool
  | [], needle => needle.isEmpty
  | a :: rest, needle => hasPrefixSeq (a :: rest) needle || includesSub rest needle

/-- JavaScript `toLowerCase`, restricted to the per-character lowering the
ASCII keyword set needs. -/
def toLowerStr (s : List Char) : List Char := s.map Char.toLower

theorem hasPrefixSeq_iff (hay needle : List Char) :
    hasPrefixSeq hay needle = true ↔ ∃ t, hay = needle ++ t := by
  induction needle generalizing hay with
  | nil => cases hay <;> simp [hasPrefixSeq]
  | cons b bs ih =>
    cases hay with
    | nil => simp [hasPrefixSeq]
    | cons a as =>
      simp only [hasPrefixSeq, Bool.and_eq_true, beq_iff_eq, ih, List.cons_append,
        List.cons.injEq]
      constructor
      · rintro ⟨hab, t, ht⟩
        exact ⟨t, hab, ht⟩
      · rintro ⟨t, hab, ht⟩
        exact ⟨hab, t, ht⟩

theorem includesSub_iff (hay needle : List Char) :
    includesSub hay needle = true ↔ ∃ s t, hay = s ++ needle ++ t := by
  induction hay with
  | nil =>
    simp only [includesSub, List.isEmpty_iff]
    constructor
    · rintro rfl
      exact ⟨[], [], rfl⟩
    · rintro ⟨s, t, h⟩
      rcases List.append_eq_nil.mp h.symm with ⟨h1, h2⟩
      rcases List.append_eq_nil.mp h1 with ⟨_, h3⟩
      exact h3
  | cons a rest ih =>
    simp only [includesSub, Bool.or_eq_true, hasPrefixSeq_iff, ih]
    constructor
    · rintro (⟨t, ht⟩ | ⟨s, t, ht⟩)
      · exact ⟨[], t, by simpa using ht⟩
      · exact ⟨a :: s, t, by simp [ht]⟩
    · rintro ⟨s, t, ht⟩
      cases s with
      | nil => exact Or.inl ⟨t, by simpa using ht⟩
      | cons x xs =>
        simp only [List.cons_append, List.cons.injEq] at ht
        exact Or.inr ⟨xs, t, ht.2⟩

/-- The fixed factual-intent marker phrases of `needsSearch`
(`app/api/voice-chat/route.ts`). -/
def searchKeywords : List (List Char) :=
  [("what is").data, ("who is").data, ("when did").data, ("where is").data,
   ("how does").data, ("tell me about").data, ("information about").data,
   ("explain").data, ("define").data, ("describe").data, ("history of").data,
   ("facts about").data, ("details about").data]

/-- `needsSearch` from `app/api/voice-chat/route.ts`:
`searchKeywords.some(keyword => message.toLowerCase().includes(keyword))`. -/
def needsSearch (message : List Char) : Bool :=
  searchKeywords.any (fun keyword => includesSub (toLowerStr message) keyword)

/-- C1: the query classifier returns true iff the lowercased utterance
contains at least one of the fixed marker phrases as a substring, and
returns false whenever it contains none of them. -/
theorem needsSearch_iff_marker (U : List Char) :
    needsSearch U = true ↔
      ∃ kw ∈ searchKeywords, ∃ s t, toLowerStr U = s ++ kw ++ t := by
  simp only [needsSearch, List.any_eq_true, includesSub_iff]

/-! ## Lookup gateway data -/

/-- One lookup result as produced by `app/api/search-wikipedia/route.ts`
and consumed by `searchWikipedia` in `app/api/voice-chat/route.ts`. -/
structure LookupResult where
  title : List Char
  summary : List Char
  url : List Char
deriving DecidableEq

/-- The parsed JSON body `searchWikipedia` receives from the
`/api/search-wikipedia` endpoint: an optional `results` array
(`none` models a body without a `results` field, such as an error body). -/
structure SWBody where
  results : Option (List LookupResult)
deriving DecidableEq

/-- Outcome of `searchWikipedia`'s fetch of `/api/search-wikipedia`:
the fetch may reject, or resolve to a response whose `json()` either
rejects (`response none`) or parses (`response (some body)`).  The
source never inspects the HTTP status here, so the status is not part
of the outcome it can observe. -/
inductive SWOutcome where
  | netError
  | response (json : Option SWBody)
deriving DecidableEq

/-- `searchWikipedia` from `app/api/voice-chat/route.ts`: returns
`data.results?.[0] || null`, collapsing every failure to `null` via the
surrounding try/catch. -/
def searchWikipedia (o : SWOutcome) : Option LookupResult :=
  match o with
  | .netError => none
  | .response none => none
  | .response (some body) => (body.results.getD []).head?

/-! ## Completion gateway (`app/api/voice-chat/route.ts` POST handler) -/

def basePrompt : List Char :=
  ("You are a helpful AI assistant. Answer the user\x27s question clearly and concisely.").data

/-- The literal segments of the block appended to the system prompt when a
lookup result is present, split at the interpolation points of the source
template string. -/
def blkTitle : List Char :=
  ("\n\nHere is relevant information from Wikipedia:\nTitle: ").data

def blkSummary : List Char := ("\nSummary: ").data

def blkSource : List Char := ("\nSource: ").data

def blkUsage : List Char :=
  ("\n\nUse this information to help answer the user\x27s question. ").data

/-- The attribution instruction closing the block. -/
def attributionNote : List Char :=
  ("Be sure to mention that the information comes from Wikipedia when relevant.").data

/-- The block appended to the system prompt when a lookup result is present. -/
def wikiBlock (r : LookupResult) : List Char :=
  blkTitle ++ r.title ++ blkSummary ++ r.summary ++ blkSource ++ r.url ++
    blkUsage ++ attributionNote

inductive ChatRole where
  | system
  | user
deriving DecidableEq

/-- One message of the outgoing model payload; the source wraps the text as
`content: [{ type: 'text', text }]`, modelled here by the text itself. -/
structure ChatMsg where
  role : ChatRole
  text : List Char
deriving DecidableEq

structure Payload where
  model : List Char
  messages : List ChatMsg
deriving DecidableEq

def modelId : List Char := ("anthropic/claude-sonnet-4").data

def mkPayload (systemPrompt message : List Char) : Payload :=
  ⟨modelId, [⟨ChatRole.system, systemPrompt⟩, ⟨ChatRole.user, message⟩]⟩

/-- Outcome of the handler's fetch of the upstream completion API:
rejected, or a response with an HTTP status, a text body (read by
`response.text()` on the failure path) and a `json()` result
(`none` when `json()` rejects; a parsed payload is carried opaquely as
its serialisation, since the handler only passes it through). -/
inductive UpstreamOutcome where
  | netError
  | response (status : Nat) (body : List Char) (json : Option (List Char))
deriving DecidableEq

/-- A `NextResponse.json` reply: either `{error: message}` with an explicit
status, or the pass-through payload with status 200. -/
inductive ApiResp where
  | errorResp (status : Nat) (message : List Char)
  | okResp (payload : List Char)
deriving DecidableEq

/-- A request body as seen by `await req.json()`: rejected, or parsed with
an optional `message`/`query` string field (`none` = field absent). -/
inductive ReqBody where
  | malformed
  | parsed (field : Option (List Char))
deriving DecidableEq

/-- JavaScript falsiness of an optional string field (`!message`):
absent or empty. -/
def isFalsyStr : Option (List Char) → Bool
  | none => true
  | some s => s.isEmpty

/-- JavaScript `Response.ok`: status in [200, 300). -/
def jsOk (status : Nat) : Bool := decide (200 ≤ status ∧ status < 300)

def msgMissing : List Char := ("Message missing").data
def queryMissing : List Char := ("Query missing").data
def failedAI : List Char := ("Failed to get AI response").data
def serverError : List Char := ("Server error").data
def searchErrorMsg : List Char := ("Search error").data

/-- Result of one run of the `/api/voice-chat` POST handler: the HTTP
response, whether the internal lookup endpoint was called, and the payload
handed to the upstream completion fetch (`none` when no upstream call was
issued). -/
structure VCResult where
  resp : ApiResp
  lookupCalled : Bool
  sent : Option Payload
deriving DecidableEq

/-- The `POST` handler of `app/api/voice-chat/route.ts`.  External effects
are passed in as outcomes: `sw` is what `searchWikipedia`'s fetch would
yield if the lookup runs, `up` what the upstream completion fetch yields
if it runs. -/
def voiceChatPOST (req : ReqBody) (sw : SWOutcome) (up : UpstreamOutcome) : VCResult :=
  match req with
  | .malformed => ⟨.errorResp 500 serverError, false, none⟩
  | .parsed m =>
    if isFalsyStr m then ⟨.errorResp 400 msgMissing, false, none⟩
    else
      let message := m.getD []
      let lookupCalled := needsSearch message
      let searchResult : Option LookupResult :=
        if needsSearch message then searchWikipedia sw else none
      let systemPrompt : List Char :=
        basePrompt ++ (match searchResult with
          | some r => wikiBlock r
          | none => [])
      let payload := mkPayload systemPrompt message
      match up with
      | .netError => ⟨.errorResp 500 serverError, lookupCalled, some payload⟩
      | .response status _body json =>
        if jsOk status then
          match json with
          | none => ⟨.errorResp 500 serverError, lookupCalled, some payload⟩
          | some d => ⟨.okResp d, lookupCalled, some payload⟩
        else ⟨.errorResp status failedAI, lookupCalled, some payload⟩

/-! ## Lookup gateway endpoint (`app/api/search-wikipedia/route.ts`) -/

/-- Uppercase hexadecimal digit, as `encodeURIComponent` emits. -/
def hexDigit (n : Nat) : Char :=
  if n < 10 then Char.ofNat (48 + n) else Char.ofNat (55 + n)

/-- UTF-8 byte sequence of one code point. -/
def utf8Bytes (c : Char) : List Nat :=
  let n := c.toNat
  if n < 128 then [n]
  else if n < 2048 then [192 + n / 64, 128 + n % 64]
  else if n < 65536 then [224 + n / 4096, 128 + (n / 64) % 64, 128 + n % 64]
  else [240 + n / 262144, 128 + (n / 4096) % 64, 128 + (n / 64) % 64, 128 + n % 64]

/-- Characters `encodeURIComponent` leaves unescaped besides ASCII
letters and digits: `- _ . ! ~ * ( )` and the apostrophe (U+0027). -/
def uriMark : List Char := ("-_.!~*()").data ++ [Char.ofNat 39]

def isUriSafe (c : Char) : Bool :=
  c.isAlpha || c.isDigit || uriMark.contains c

def percentByte (b : Nat) : List Char :=
  [Char.ofNat 37, hexDigit (b / 16), hexDigit (b % 16)]

/-- JavaScript `encodeURIComponent`. -/
def encodeURIComponent (s : List Char) : List Char :=
  s.flatMap (fun c => if isUriSafe c then [c] else (utf8Bytes c).flatMap percentByte)

/-- One hit of `searchData.query.search`, of which the handler reads only
the title. -/
structure SearchHit where
  title : List Char
deriving DecidableEq

/-- Parsed body of the Wikipedia search call: `searchData.query?.search`
collapsed to one optional list (`none` models `query` or `search` absent). -/
structure WikiSearchBody where
  search : Option (List SearchHit)
deriving DecidableEq

inductive WikiSearchOutcome where
  | netError
  | response (json : Option WikiSearchBody)
deriving DecidableEq

/-- Parsed body of the page-summary call: title, extract, and the optional
`content_urls?.desktop?.page` display URL. -/
structure SummaryBody where
  title : List Char
  extract : List Char
  page : Option (List Char)
deriving DecidableEq

inductive SummaryOutcome where
  | netError
  | response (json : Option SummaryBody)
deriving DecidableEq

inductive WikiResp where
  | errorResp (status : Nat) (message : List Char)
  | okResults (results : List LookupResult)
deriving DecidableEq

/-- Result of one run of the `/api/search-wikipedia` POST handler: the
response and how many upstream fetches were issued. -/
structure WikiResult where
  resp : WikiResp
  fetches : Nat
deriving DecidableEq

def wikiBase : List Char := ("https://en.wikipedia.org/wiki/").data

/-- The `POST` handler of `app/api/search-wikipedia/route.ts`. -/
def searchWikipediaPOST (req : ReqBody) (searchOut : WikiSearchOutcome)
    (summaryOut : SummaryOutcome) : WikiResult :=
  match req with
  | .malformed => ⟨.errorResp 500 searchErrorMsg, 0⟩
  | .parsed q =>
    if isFalsyStr q then ⟨.errorResp 400 queryMissing, 0⟩
    else
      match searchOut with
      | .netError => ⟨.errorResp 500 searchErrorMsg, 1⟩
      | .response none => ⟨.errorResp 500 searchErrorMsg, 1⟩
      | .response (some sd) =>
        match sd.search.getD [] with
        | [] => ⟨.okResults [], 1⟩
        | firstResult :: _ =>
          match summaryOut with
          | .netError => ⟨.errorResp 500 searchErrorMsg, 2⟩
          | .response none => ⟨.errorResp 500 searchErrorMsg, 2⟩
          | .response (some sm) =>
            ⟨.okResults [⟨sm.title, sm.extract,
               sm.page.getD (wikiBase ++ encodeURIComponent firstResult.title)⟩], 2⟩

/-! ## Turn controller (`components/VoiceChat.tsx`) -/

inductive TurnRole where
  | user
  | assistant
deriving DecidableEq

/-- The `Message` interface of the component. -/
structure Turn where
  role : TurnRole
  text : List Char
  timestamp : Nat
deriving DecidableEq

/-- The component's `useState` cells: the transcript and the flags the
page renders. -/
structure CtrlState where
  messages : List Turn
  isListening : Bool
  isProcessing : Bool
  isSearching : Bool
  isSpeaking : Bool
  error : List Char
deriving DecidableEq

/-- Observable calls a handler makes on its collaborators, in program
order: `recognition.start()`, `speechSynthesis.cancel()`, an append to the
transcript, and `speechSynthesis.speak(...)` (the start of playback). -/
inductive Event where
  | startCapture
  | cancelPlayback
  | appendTurn (t : Turn)
  | startPlayback (text : List Char)
deriving DecidableEq

def sttUnsupported : List Char :=
  ("Speech recognition not supported in this browser. Please use Chrome, Edge, or Safari.").data

def ttsUnsupported : List Char :=
  ("Text-to-speech not supported in this browser.").data

def defaultSendErr : List Char := ("Error sending message. Please try again.").data

def noReplyText : List Char := ("No reply received").data

/-- The thrown message on a non-ok response:
`errorData.error || "HTTP ${res.status}: Failed to process the message"`. -/
def httpFailText (status : Nat) : List Char :=
  ("HTTP ").data ++ (toString status).data ++ (": Failed to process the message").data

/-- `startListening`: clears the error, bails out if the platform lacks
speech recognition, cancels any active synthesis playback, then creates a
recognizer and starts it.  `recogSupport` is whether the platform exposes
`SpeechRecognition`; `synthSpeaking` is `window.speechSynthesis.speaking`.
(`setIsListening(true)` happens only later, inside the asynchronous
`onstart` callback, so it is not part of this synchronous step.) -/
def startListening (recogSupport synthSpeaking : Bool) (s : CtrlState) :
    CtrlState × List Event :=
  let s := { s with error := [] }
  if recogSupport = false then
    ({ s with error := sttUnsupported }, [])
  else
    let (s1, evs) :=
      if synthSpeaking then ({ s with isSpeaking := false }, [Event.cancelPlayback])
      else (s, [])
    (s1, evs ++ [Event.startCapture])

/-- `speakText`: with synthesis support, cancels any ongoing speech and
starts playback of `text` (`setIsSpeaking(true)` fires later in the
asynchronous `onstart` callback); without support, records an error. -/
def speakText (synthSupport : Bool) (text : List Char) (s : CtrlState) :
    CtrlState × List Event :=
  if synthSupport then
    (s, [Event.cancelPlayback, Event.startPlayback text])
  else
    ({ s with error := ttsUnsupported }, [])

/-- `stopSpeaking`: cancels synthesis and resets the speaking flag. -/
def stopSpeaking (synthSupport : Bool) (s : CtrlState) : CtrlState × List Event :=
  if synthSupport then
    ({ s with isSpeaking := false }, [Event.cancelPlayback])
  else (s, [])

/-- `clearChat`: empties the transcript, clears the error and stops any
playback. -/
def clearChat (synthSupport : Bool) (s : CtrlState) : CtrlState × List Event :=
  stopSpeaking synthSupport { s with messages := [], error := [] }

/-- Outcome of `sendMessage`'s fetch of `/api/voice-chat`, as the client
observes it: rejection (with the thrown error's message), a non-ok status
(with the `error` field of the error body if one parsed), an ok response
whose `json()` rejects, or an ok parsed body with its optional `error`
field and optional `choices?.[0]?.message?.content` text. -/
inductive ClientOutcome where
  | netError (errMsg : List Char)
  | badStatus (status : Nat) (errField : Option (List Char))
  | okMalformed (errMsg : List Char)
  | okBody (errField : Option (List Char)) (content : Option (List Char))
deriving DecidableEq

/-- `sendMessage` from the component, for one completion outcome `o`.
`now` is the timestamp given to a created `Turn`. -/
def sendMessage (o : ClientOutcome) (synthSupport : Bool) (now : Nat)
    (s : CtrlState) : CtrlState × List Event :=
  let s := { s with isProcessing := true, isSearching := true }
  match o with
  | .netError errMsg =>
    let msg := if errMsg.isEmpty then defaultSendErr else errMsg
    ({ s with error := msg, isSearching := false, isProcessing := false }, [])
  | .badStatus status errField =>
    let s := { s with isSearching := false }
    let thrown := match errField with
      | some e => if e.isEmpty then httpFailText status else e
      | none => httpFailText status
    let msg := if thrown.isEmpty then defaultSendErr else thrown
    ({ s with error := msg, isProcessing := false }, [])
  | .okMalformed errMsg =>
    let s := { s with isSearching := false }
    let msg := if errMsg.isEmpty then defaultSendErr else errMsg
    ({ s with error := msg, isProcessing := false }, [])
  | .okBody errField content =>
    let s := { s with isSearching := false }
    if isFalsyStr errField then
      let reply := match content with
        | some c => if c.isEmpty then noReplyText else c
        | none => noReplyText
      let t : Turn := ⟨TurnRole.assistant, reply, now⟩
      let (s2, evs) := speakText synthSupport reply { s with messages := s.messages ++ [t] }
      ({ s2 with isProcessing := false }, Event.appendTurn t :: evs)
    else
      let e := errField.getD []
      let msg := if e.isEmpty then defaultSendErr else e
      ({ s with error := msg, isProcessing := false }, [])

/-! ## Derived notions used by the claims -/

/-- The completion step of `sendMessage` succeeds exactly when the response
is ok, its body parses, and the body carries no truthy `error` field. -/
def completionSucceeds : ClientOutcome → Bool
  | .okBody errField _ => isFalsyStr errField
  | _ => false

/-- The reply text extracted on success:
`data.choices?.[0]?.message?.content || "No reply received"`. -/
def assistantReply : ClientOutcome → List Char
  | .okBody _ content =>
    match content with
    | some c => if c.isEmpty then noReplyText else c
    | none => noReplyText
  | _ => noReplyText

/-- The component's initial state: empty transcript, all flags false, no
error text. -/
def initState : CtrlState := ⟨[], false, false, false, false, []⟩

/-! ## Claims -/

/-- C2: a successful completion appends exactly one assistant `Turn`, and
the append event precedes the start of playback (the transition to
Speaking); a failed completion emits no events at all and leaves the
transcript unchanged. -/
theorem sendMessage_transcript (o : ClientOutcome) (ss : Bool) (now : Nat)
    (s : CtrlState) :
    ((sendMessage o ss now s).1.messages, (sendMessage o ss now s).2) =
      if completionSucceeds o then
        (s.messages ++ [⟨TurnRole.assistant, assistantReply o, now⟩],
         Event.appendTurn ⟨TurnRole.assistant, assistantReply o, now⟩ ::
           (if ss then
              [Event.cancelPlayback, Event.startPlayback (assistantReply o)]
            else []))
      else (s.messages, []) := by
  cases o with
  | netError e => simp [sendMessage, completionSucceeds]
  | badStatus st ef => simp [sendMessage, completionSucceeds]
  | okMalformed e => simp [sendMessage, completionSucceeds]
  | okBody ef c =>
    by_cases h : isFalsyStr ef = true
    · cases ss <;>
        simp [sendMessage, completionSucceeds, h, speakText, assistantReply]
    · simp only [Bool.not_eq_true] at h
      simp [sendMessage, completionSucceeds, h]

/-- A Listening-state with a nonempty error text, used to exhibit that a
second `start` is observable. -/
def listeningErrState : CtrlState :=
  ⟨[], true, false, false, false, ("x").data⟩

/-- C4 counterexample: invoking `startListening` while the controller is
Listening is not a no-op — it clears the error text and issues a new
`recognition.start()` call. -/
theorem start_while_listening_not_noop :
    ¬ ((startListening true false listeningErrState).1 = listeningErrState ∧
       (startListening true false listeningErrState).2 = []) := by
  decide

/-- C4 (amended): `startListening` has no Listening guard; while Listening
it leaves the transcript and the listening/processing/searching flags
unchanged, but clears the error text and starts a new capture, cancelling
platform playback first when the synthesiser is speaking. -/
theorem startListening_while_listening (sp : Bool) (s : CtrlState)
    (h : s.isListening = true) :
    (startListening true sp s).1.messages = s.messages ∧
    (startListening true sp s).1.isListening = s.isListening ∧
    (startListening true sp s).1.isProcessing = s.isProcessing ∧
    (startListening true sp s).1.isSearching = s.isSearching ∧
    (startListening true sp s).1.isSpeaking = (if sp then false else s.isSpeaking) ∧
    (startListening true sp s).1.error = [] ∧
    (startListening true sp s).2 =
      (if sp then [Event.cancelPlayback] else []) ++ [Event.startCapture] := by
  cases sp <;> simp [startListening]

/-- C4 witness: the amended statement evaluated in a concrete Listening
state. -/
theorem startListening_while_listening_witness :
    listeningErrState.isListening = true ∧
    (startListening true false listeningErrState).1.messages =
      listeningErrState.messages ∧
    (startListening true false listeningErrState).1.error = [] ∧
    (startListening true false listeningErrState).2 = [Event.startCapture] := by
  refine ⟨rfl, ?_, ?_, ?_⟩
  · exact (startListening_while_listening false listeningErrState rfl).1
  · exact (startListening_while_listening false listeningErrState rfl).2.2.2.2.2.1
  · simpa using (startListening_while_listening false listeningErrState rfl).2.2.2.2.2.2

/-- A Speaking-state: playback of a prior reply is active. -/
def speakingState : CtrlState := ⟨[], false, false, false, true, []⟩

/-- C7: starting a capture while Speaking is not rejected — it cancels the
active playback first (resetting the speaking flag) and then starts the
capture, as two observable events in that order. -/
theorem start_while_speaking_cancels_then_captures (s : CtrlState)
    (h : s.isSpeaking = true) :
    (startListening true true s).2 = [Event.cancelPlayback, Event.startCapture] ∧
    (startListening true true s).1.isSpeaking = false ∧
    (startListening true true s).1.messages = s.messages := by
  simp [startListening]

/-- C7 witness: the statement evaluated in a concrete Speaking state. -/
theorem start_while_speaking_witness :
    speakingState.isSpeaking = true ∧
    (startListening true true speakingState).2 =
      [Event.cancelPlayback, Event.startCapture] ∧
    (startListening true true speakingState).1.isSpeaking = false ∧
    (startListening true true speakingState).1.messages = speakingState.messages :=
  ⟨rfl, start_while_speaking_cancels_then_captures speakingState rfl⟩

/-- C8: a `/voice-chat` request whose body lacks a `message` field gets a
400 response with body `{error: "Message missing"}`, and neither the
lookup nor the upstream completion call is made. -/
theorem voiceChat_missing_message (sw : SWOutcome) (up : UpstreamOutcome) :
    voiceChatPOST (ReqBody.parsed none) sw up =
      ⟨ApiResp.errorResp 400 msgMissing, false, none⟩ := rfl

/-- C9: `clearChat` empties the transcript and stops any active playback.
The hypothesis records that playback can only be active when the platform
has speech synthesis (the speaking flag is only ever set from a synthesis
callback). -/
theorem clearChat_round_trip (support : Bool) (s : CtrlState)
    (h : s.isSpeaking = true → support = true) :
    (clearChat support s).1.messages = [] ∧
    (clearChat support s).1.isSpeaking = false ∧
    (s.isSpeaking = true → (clearChat support s).2 = [Event.cancelPlayback]) := by
  cases support with
  | false =>
    cases hs : s.isSpeaking with
    | false => simp [clearChat, stopSpeaking, hs]
    | true => exact absurd (h hs) (by simp)
  | true => simp [clearChat, stopSpeaking]

/-- A busy concrete state: nonempty transcript, active playback, stale
error text. -/
def clutteredState : CtrlState :=
  ⟨[⟨TurnRole.user, ("hi").data, 0⟩], false, true, false, true, ("e").data⟩

/-- C9 witness: `clearChat` evaluated on a concrete busy state. -/
theorem clearChat_round_trip_witness :
    (clearChat true clutteredState).1.messages = [] ∧
    (clearChat true clutteredState).1.isSpeaking = false ∧
    (clutteredState.isSpeaking = true →
      (clearChat true clutteredState).2 = [Event.cancelPlayback]) :=
  clearChat_round_trip true clutteredState (fun _ => rfl)

/-- C10: both endpoints treat a present-but-empty required field exactly
like an absent one: `{message: ""}` gets the same 400 `Message missing`
response as a missing field, `{query: ""}` gets 400 `Query missing`, and
no upstream call is made in either case. -/
theorem empty_string_treated_as_missing (sw : SWOutcome) (up : UpstreamOutcome)
    (searchOut : WikiSearchOutcome) (summaryOut : SummaryOutcome) :
    voiceChatPOST (ReqBody.parsed (some [])) sw up =
      ⟨ApiResp.errorResp 400 msgMissing, false, none⟩ ∧
    voiceChatPOST (ReqBody.parsed (some [])) sw up =
      voiceChatPOST (ReqBody.parsed none) sw up ∧
    searchWikipediaPOST (ReqBody.parsed (some [])) searchOut summaryOut =
      ⟨WikiResp.errorResp 400 queryMissing, 0⟩ ∧
    searchWikipediaPOST (ReqBody.parsed (some [])) searchOut summaryOut =
      searchWikipediaPOST (ReqBody.parsed none) searchOut summaryOut :=
  ⟨rfl, rfl, rfl, rfl⟩

/-! ## C3, C5, C6 -/

/-- Helper: the payload handed to the upstream fetch, for any non-falsy
message and any upstream outcome. -/
theorem voiceChatPOST_sent (m : List Char) (sw : SWOutcome) (up : UpstreamOutcome)
    (hm : m.isEmpty = false) :
    (voiceChatPOST (ReqBody.parsed (some m)) sw up).sent =
      some (mkPayload
        (basePrompt ++
          (match (if needsSearch m then searchWikipedia sw else none) with
           | some r => wikiBlock r
           | none => [])) m) := by
  cases up with
  | netError => simp [voiceChatPOST, isFalsyStr, hm]
  | response st b j =>
    by_cases hok : jsOk st = true
    · cases j <;> simp [voiceChatPOST, isFalsyStr, hm, hok]
    · simp only [Bool.not_eq_true] at hok
      simp [voiceChatPOST, isFalsyStr, hm, hok]

/-- Helper: a witnessed decomposition shows substring containment. -/
theorem includesSub_of_eq (hay s needle t : List Char) (h : hay = s ++ needle ++ t) :
    includesSub hay needle = true :=
  (includesSub_iff hay needle).mpr ⟨s, t, h⟩

/-- A sample upstream error body, not occurring in any fixed message of
the handler. -/
def upBodyA : List Char := ("upstream unavailable detail").data

/-- C3 counterexample: on upstream status 503 the handler does respond
with status 503, but the response body is the fixed
`Failed to get AI response` message — it carries neither the upstream
status digits nor the upstream response body, and is even independent of
that body. -/
theorem voiceChat_drops_upstream_body :
    (voiceChatPOST (ReqBody.parsed (some (("hi").data))) SWOutcome.netError
        (UpstreamOutcome.response 503 upBodyA none)).resp =
      ApiResp.errorResp 503 failedAI ∧
    includesSub failedAI upBodyA = false ∧
    includesSub failedAI (("503").data) = false ∧
    voiceChatPOST (ReqBody.parsed (some (("hi").data))) SWOutcome.netError
        (UpstreamOutcome.response 503 upBodyA none) =
      voiceChatPOST (ReqBody.parsed (some (("hi").data))) SWOutcome.netError
        (UpstreamOutcome.response 503 (("a different upstream body").data) none) := by
  decide

/-- C3 (amended): on any non-success upstream status the handler returns,
without throwing, a response whose HTTP status equals the upstream status
and whose body is the fixed `{error: "Failed to get AI response"}`
message; the upstream response body is read only for logging and the
result does not depend on it. -/
theorem voiceChat_upstream_error_resp (m : List Char) (sw : SWOutcome)
    (status : Nat) (body body2 : List Char) (json json2 : Option (List Char))
    (hm : m ≠ []) (hst : jsOk status = false) :
    (voiceChatPOST (ReqBody.parsed (some m)) sw
        (UpstreamOutcome.response status body json)).resp =
      ApiResp.errorResp status failedAI ∧
    voiceChatPOST (ReqBody.parsed (some m)) sw
        (UpstreamOutcome.response status body json) =
      voiceChatPOST (ReqBody.parsed (some m)) sw
        (UpstreamOutcome.response status body2 json2) := by
  have hme : m.isEmpty = false := by
    cases m with
    | nil => exact absurd rfl hm
    | cons a l => rfl
  constructor
  · simp [voiceChatPOST, isFalsyStr, hme, hst]
  · simp [voiceChatPOST, isFalsyStr, hme, hst]

/-- C3 amended-claim witness: evaluated at upstream status 503. -/
theorem voiceChat_upstream_error_resp_witness :
    (("hi").data ≠ []) ∧ jsOk 503 = false ∧
    (voiceChatPOST (ReqBody.parsed (some (("hi").data))) SWOutcome.netError
        (UpstreamOutcome.response 503 upBodyA (some (("j").data)))).resp =
      ApiResp.errorResp 503 failedAI :=
  ⟨by decide, by decide,
    (voiceChat_upstream_error_resp (("hi").data) SWOutcome.netError 503 upBodyA
      upBodyA (some (("j").data)) (some (("j").data)) (by decide) (by decide)).1⟩

/-- A lookup outcome on which the lookup yields no result: the fetch
rejected, the body did not parse, the body had no `results` field, or the
`results` array was empty (the zero-hit answer of the endpoint). -/
def swFails (o : SWOutcome) : Bool :=
  match o with
  | .netError => true
  | .response none => true
  | .response (some b) => (b.results.getD []).isEmpty

/-- C5: the lookup never raises — every failing outcome (zero hits,
network failure, unparseable payload, error body) yields `none` — and the
turn still reaches the completion call with the unaugmented base prompt;
moreover the endpoint itself answers a zero-hit search with
`{results: []}` after its single search fetch. -/
theorem lookup_fails_soft (o : SWOutcome) (m q : List Char) (up : UpstreamOutcome)
    (summaryOut : SummaryOutcome) (h : swFails o = true) (hm : m ≠ []) (hq : q ≠ []) :
    searchWikipedia o = none ∧
    (voiceChatPOST (ReqBody.parsed (some m)) o up).sent =
      some (mkPayload basePrompt m) ∧
    searchWikipediaPOST (ReqBody.parsed (some q))
        (WikiSearchOutcome.response (some ⟨some []⟩)) summaryOut =
      ⟨WikiResp.okResults [], 1⟩ := by
  have hnone : searchWikipedia o = none := by
    cases o with
    | netError => rfl
    | response j =>
      cases j with
      | none => rfl
      | some b =>
        have : b.results.getD [] = [] := by
          simpa [swFails, List.isEmpty_iff] using h
        simp [searchWikipedia, this]
  have hme : m.isEmpty = false := by
    cases m with
    | nil => exact absurd rfl hm
    | cons a l => rfl
  have hqe : q.isEmpty = false := by
    cases q with
    | nil => exact absurd rfl hq
    | cons a l => rfl
  refine ⟨hnone, ?_, ?_⟩
  · rw [voiceChatPOST_sent m o up hme, hnone]
    simp
  · simp [searchWikipediaPOST, isFalsyStr, hqe]

/-- C5 witness: evaluated at a rejected lookup fetch and a factual
utterance. -/
theorem lookup_fails_soft_witness :
    swFails SWOutcome.netError = true ∧
    (("what is x").data ≠ []) ∧ (("x").data ≠ []) ∧
    searchWikipedia SWOutcome.netError = none ∧
    (voiceChatPOST (ReqBody.parsed (some (("what is x").data))) SWOutcome.netError
        UpstreamOutcome.netError).sent =
      some (mkPayload basePrompt (("what is x").data)) ∧
    searchWikipediaPOST (ReqBody.parsed (some (("x").data)))
        (WikiSearchOutcome.response (some ⟨some []⟩)) SummaryOutcome.netError =
      ⟨WikiResp.okResults [], 1⟩ :=
  ⟨rfl, by decide, by decide,
    lookup_fails_soft SWOutcome.netError (("what is x").data) (("x").data)
      UpstreamOutcome.netError SummaryOutcome.netError rfl (by decide) (by decide)⟩

/-- C6: every completion payload holds exactly one system-role and one
user-role message, in that order; the user text is the raw utterance, the
system text is the base persona alone, or, when the lookup produced a
result, the base persona followed by the rendered block — and that block
contains the lookup's title, summary and source URL together with the
attribution instruction. -/
theorem completion_payload_shape (m : List Char) (sw : SWOutcome)
    (up : UpstreamOutcome) (hm : m ≠ []) :
    (∃ sys : List Char,
      (voiceChatPOST (ReqBody.parsed (some m)) sw up).sent =
        some ⟨modelId, [⟨ChatRole.system, sys⟩, ⟨ChatRole.user, m⟩]⟩ ∧
      sys = basePrompt ++
        (match (if needsSearch m then searchWikipedia sw else none) with
         | some r => wikiBlock r
         | none => [])) ∧
    ∀ r : LookupResult,
      includesSub (wikiBlock r) r.title = true ∧
      includesSub (wikiBlock r) r.summary = true ∧
      includesSub (wikiBlock r) r.url = true ∧
      includesSub (wikiBlock r) attributionNote = true := by
  have hme : m.isEmpty = false := by
    cases m with
    | nil => exact absurd rfl hm
    | cons a l => rfl
  constructor
  · exact ⟨_, voiceChatPOST_sent m sw up hme, rfl⟩
  · intro r
    refine ⟨?_, ?_, ?_, ?_⟩
    · exact includesSub_of_eq _ blkTitle r.title
        (blkSummary ++ r.summary ++ blkSource ++ r.url ++ blkUsage ++ attributionNote)
        (by simp [wikiBlock, List.append_assoc])
    · exact includesSub_of_eq _ (blkTitle ++ r.title ++ blkSummary) r.summary
        (blkSource ++ r.url ++ blkUsage ++ attributionNote)
        (by simp [wikiBlock, List.append_assoc])
    · exact includesSub_of_eq _ (blkTitle ++ r.title ++ blkSummary ++ r.summary ++ blkSource)
        r.url (blkUsage ++ attributionNote)
        (by simp [wikiBlock, List.append_assoc])
    · exact includesSub_of_eq _
        (blkTitle ++ r.title ++ blkSummary ++ r.summary ++ blkSource ++ r.url ++ blkUsage)
        attributionNote [] (by simp [wikiBlock, List.append_assoc])

/-- C6 witness: evaluated at a factual utterance with a concrete lookup
hit and a rejected upstream fetch. -/
theorem completion_payload_shape_witness :
    (("what is x").data ≠ []) ∧
    (∃ sys : List Char,
      (voiceChatPOST (ReqBody.parsed (some (("what is x").data)))
          (SWOutcome.response (some ⟨some [⟨("T").data, ("S").data, ("U").data⟩]⟩))
          UpstreamOutcome.netError).sent =
        some ⟨modelId, [⟨ChatRole.system, sys⟩, ⟨ChatRole.user, ("what is x").data⟩]⟩ ∧
      sys = basePrompt ++
        (match (if needsSearch (("what is x").data) then
            searchWikipedia (SWOutcome.response
              (some ⟨some [⟨("T").data, ("S").data, ("U").data⟩]⟩))
          else none) with
         | some r => wikiBlock r
         | none => [])) :=
  ⟨by decide,
    (completion_payload_shape (("what is x").data)
      (SWOutcome.response (some ⟨some [⟨("T").data, ("S").data, ("U").data⟩]⟩))
      UpstreamOutcome.netError (by decide)).1⟩

end VoiceApp
